/-
Verification of the NetworkSim ring-network simulator.

This file embeds the core data structures and operations of the NetworkSim
repository (optical ring network discrete-event simulator) in Lean 4 and
proves or refutes the specification claims about them.

Numeric values are embedded as rationals (ℚ); Python float arithmetic is
idealised as exact rational arithmetic.  Fallible Python code (raising
exceptions) is embedded with `Except String`.
-/
import Mathlib

namespace NetworkSim

/-! ## Numeric helpers

`npIsClose` embeds `np.isclose(a, b, atol=1e-2)` as used in
`architecture/base/ring.py`.  NumPy's definition is
`|a - b| <= atol + rtol * |b|` with the DEFAULT relative tolerance
`rtol = 1e-5` (the source only overrides `atol`).

`pymod` embeds Python's float `%` operator, whose result takes the sign of
the divisor: `x % L = x - L * floor(x / L)`.
-/

/-- NumPy `isclose` with `atol = 1e-2` and the default `rtol = 1e-5`,
as called in `Ring.check_packet`. -/
def npIsClose (a b : ℚ) : Bool :=
  |a - b| ≤ 1 / 100 + (1 / 100000) * |b|

/-- Python's `%` on rationals: `x - L * ⌊x / L⌋` (sign follows the divisor). -/
def pymod (x L : ℚ) : ℚ :=
  x - L * ⌊x / L⌋

/-! ## Model

The `Model` class (`architecture/setup/model.py`) is not under `src/`;
only the fields that `ring.py` and `clock.py` read are embedded here.
Modelled from the spec: constants are the ring length L (m), the
propagation speed v (m/s) and the node count N. -/

/-- The network model constants accessed by the ring:
`model.network.length`, `model.constants.get('speed')`,
`model.network.num_nodes`. -/
structure Model where
  length : ℚ
  speed : ℚ
  num_nodes : ℕ
  deriving DecidableEq, Repr

/-! ## Ring data structure (`architecture/base/ring.py`) -/

/-- A packet on a ring, the six-field list built by `Ring.add_packet`:
`[raw_packet, generation_timestamp, transmission_timestamp,
packet_entry_point, entry_node_id, destination_node_id]`.
The raw payload type is a parameter (control packets carry decimal
triples in abstract mode, data packets carry `[ram_id, seq]` pairs). -/
structure Packet (α : Type) where
  raw_packet : α
  generation_timestamp : ℚ
  transmission_timestamp : ℚ
  packet_entry_point : ℚ
  entry_node_id : ℤ
  destination_node_id : ℤ
  deriving DecidableEq, Repr

/-- Status column of a `packet_record` entry. -/
inductive PacketStatus where
  | added
  | removed
  deriving DecidableEq, Repr

/-- One entry of `Ring.packet_record`:
`[generation_ts, transmission_ts, reception_ts, raw_packet, source_node,
node, status, total_packet_count]`.  The reception timestamp is `None`
(`Option.none`) for `added` entries. -/
structure RecordEntry (α : Type) where
  generation_timestamp : ℚ
  transmission_timestamp : ℚ
  reception_timestamp : Option ℚ
  raw_packet : α
  source_node : ℤ
  node : ℤ
  status : PacketStatus
  total_packet_count : ℤ
  deriving DecidableEq, Repr

/-- Time unit of the simulation, fixed at ring construction (`'ns'` or `'s'`). -/
inductive TimeUnit where
  | ns
  | s
  deriving DecidableEq, Repr

/-- The factor multiplying `(current_time - transmission_time) * speed` in
`Ring.check_packet`: `1e-9` in nanosecond mode, `1` in second mode. -/
def unit_factor : TimeUnit → ℚ
  | .ns => 1 / 10 ^ 9
  | .s => 1

/-- The `Ring` state (`Ring.__init__`). -/
structure Ring (α : Type) where
  model : Model
  ring_id : Option ℤ := none
  packets : List (Packet α) := []
  packet_count : ℤ := 0
  packet_record : List (RecordEntry α) := []
  time_unit : TimeUnit := .ns
  reversed : Bool := false
  deriving DecidableEq, Repr

/-- Embedding of `Ring.get_nodes_location`: `np.linspace(0, length, num_nodes + 1)[:-1]`,
whose `k`-th element is `length * k / num_nodes`.  Embedded as a total
function of the node index. -/
def nodes_location (m : Model) (k : ℕ) : ℚ :=
  m.length * k / m.num_nodes

/-- NumPy integer indexing into an array of length `N`: a negative index
`i` with `-N ≤ i` addresses element `N + i`; this is total only on
`-N ≤ i < N` (otherwise NumPy raises `IndexError`). -/
def numpy_index (i : ℤ) (N : ℕ) : ℕ :=
  if i < 0 then (i + N).toNat else i.toNat

/-- Embedding of `Ring.add_packet`: appends the six-field packet with entry point
`nodes_location[node_id]`, increments `packet_count` and appends an
`added` record.  The only explicit validation in the source is
`isinstance(node_id, int)` (inherent here, `node_id : ℤ`); an out-of-range
`node_id` raises `IndexError` from the NumPy indexing
`self.nodes_location[node_id]`, while a negative in-range index silently
wraps from the end of the array. -/
def Ring.add_packet (r : Ring α) (node_id destination_id : ℤ) (packet : α)
    (generation_timestamp transmission_timestamp : ℚ) :
    Except String (Ring α) :=
  if node_id < -(r.model.num_nodes : ℤ) ∨ (r.model.num_nodes : ℤ) ≤ node_id then
    .error "IndexError: index out of bounds"
  else
    let new_count := r.packet_count + 1
    .ok { r with
      packets := r.packets ++ [{
        raw_packet := packet
        generation_timestamp := generation_timestamp
        transmission_timestamp := transmission_timestamp
        packet_entry_point := nodes_location r.model (numpy_index node_id r.model.num_nodes)
        entry_node_id := node_id
        destination_node_id := destination_id }]
      packet_count := new_count
      packet_record := r.packet_record ++ [{
        generation_timestamp := generation_timestamp
        transmission_timestamp := transmission_timestamp
        reception_timestamp := none
        raw_packet := packet
        source_node := node_id
        node := destination_id
        status := .added
        total_packet_count := new_count }] }

/-- Embedding of `Ring.remove_packet`: Python `list.remove` deletes the first occurrence
of an equal element and raises `ValueError` when the element is absent;
then `packet_count` is decremented and a `removed` record appended. -/
def Ring.remove_packet [DecidableEq α] (r : Ring α) (node_id : ℤ)
    (packet : Packet α) (reception_timestamp : ℚ) :
    Except String (Ring α) :=
  if packet ∈ r.packets then
    let new_count := r.packet_count - 1
    .ok { r with
      packets := r.packets.erase packet
      packet_count := new_count
      packet_record := r.packet_record ++ [{
        generation_timestamp := packet.generation_timestamp
        transmission_timestamp := packet.transmission_timestamp
        reception_timestamp := some reception_timestamp
        raw_packet := packet.raw_packet
        source_node := packet.entry_node_id
        node := node_id
        status := .removed
        total_packet_count := new_count }] }
  else
    .error "ValueError: list.remove(x): x not in list"

/-- The per-packet position computation of `Ring.check_packet`:
analytic position, wrap with Python `%`, the reversed-ring mirror
implemented with conditional `± length` correction, and the
end-of-ring snap to `0` via `np.isclose(·, length, atol=1e-2)`. -/
def Ring.packet_location_on_ring (r : Ring α) (p : Packet α) (current_time : ℚ) : ℚ :=
  let new_location :=
    p.packet_entry_point +
      (current_time - p.transmission_timestamp) * r.model.speed * unit_factor r.time_unit
  let on_ring := pymod new_location r.model.length
  let on_ring :=
    if r.reversed then
      let mirrored := p.packet_entry_point - (on_ring - p.packet_entry_point)
      if mirrored < 0 then mirrored + r.model.length
      else if mirrored > r.model.length then mirrored - r.model.length
      else mirrored
    else on_ring
  if npIsClose on_ring r.model.length then 0 else on_ring

/-- The scan loop of `Ring.check_packet`: return the first packet (in
insertion order) satisfying the position predicate, else `(False, None)`. -/
def checkScan (pred : Packet α → Bool) : List (Packet α) → Bool × Option (Packet α)
  | [] => (false, none)
  | p :: ps => if pred p then (true, some p) else checkScan pred ps

/-- Embedding of `Ring.check_packet`: scans the live packets in insertion order and
returns the first one whose computed ring position is
`np.isclose`-equal (atol `1e-2`, default rtol `1e-5`) to
`nodes_location[node_id]`.  The `isinstance(node_id, int)` guard is
inherent (`node_id : ℕ`); node position lookup is embedded as the total
function `nodes_location`. -/
def Ring.check_packet (r : Ring α) (current_time : ℚ) (node_id : ℕ) :
    Bool × Option (Packet α) :=
  checkScan (fun p =>
    npIsClose (r.packet_location_on_ring p current_time) (nodes_location r.model node_id))
    r.packets

/-! ## Reference versions of the packet check (for claim C1/C8)

`ring_check_claimed` follows the words of claim C1 (and spec §4.1): a plain
tolerance ε = 1e-2 (`|x − y| < ε`) with the reversed mirror written as
`(entry − (pos_ring − entry)) mod L`.  `ring_check_amended` is the same
statement with the comparison corrected to the actual
`np.isclose(·, ·, atol=1e-2)` semantics (`|x − y| ≤ atol + rtol·|y|`,
default `rtol = 1e-5`). -/

/-- The claim's plain tolerance: within ε = 1e-2. -/
def epsClose (x y : ℚ) : Bool :=
  |x - y| < 1 / 100

/-- Packet position as described by claim C1:
`pos = entry + (t − tx) · v · 1e-9`, `pos_ring = pos mod L`, the reversed
mirror about the entry position taken modulo L, then snap to `0` within
ε of L.  The `close` parameter is the closeness predicate used both for
the snap and (by the caller) for the node match. -/
def claimed_location (close : ℚ → ℚ → Bool) (m : Model) (reversed : Bool)
    (p : Packet α) (current_time : ℚ) : ℚ :=
  let pos := p.packet_entry_point +
    (current_time - p.transmission_timestamp) * m.speed * (1 / 10 ^ 9)
  let pos_ring := pymod pos m.length
  let pos_ring :=
    if reversed then
      pymod (p.packet_entry_point - (pos_ring - p.packet_entry_point)) m.length
    else pos_ring
  if close pos_ring m.length then 0 else pos_ring

/-- Generic claim-style check: the first live packet (insertion order)
whose claimed position is `close` to the node's position. -/
def claimed_check (close : ℚ → ℚ → Bool) (m : Model) (reversed : Bool)
    (packets : List (Packet α)) (current_time : ℚ) (node_id : ℕ) :
    Bool × Option (Packet α) :=
  match packets.find? (fun p =>
      close (claimed_location close m reversed p current_time) (nodes_location m node_id)) with
  | some p => (true, some p)
  | none => (false, none)

/-- Claim C1 as stated: plain ε = 1e-2 tolerance. -/
def ring_check_claimed (r : Ring α) (current_time : ℚ) (node_id : ℕ) :
    Bool × Option (Packet α) :=
  claimed_check epsClose r.model r.reversed r.packets current_time node_id

/-- Claim C1 amended: tolerance is NumPy's
`|x − y| ≤ 1e-2 + 1e-5 · |y|` (`np.isclose` with `atol=1e-2`). -/
def ring_check_amended (r : Ring α) (current_time : ℚ) (node_id : ℕ) :
    Bool × Option (Packet α) :=
  claimed_check npIsClose r.model r.reversed r.packets current_time node_id

/-! ## Clocks (`simulation/tools/clock.py`)

Both clock classes compute the circulation time `length / speed * 1e9` (ns)
and divide it by the maximum packet count on the ring, first raising
`ValueError` when that count is odd; a count of zero passes the parity
check and then raises `ZeroDivisionError` at the division.  The maximum
counts come from `Model.get_max_data_packet_num_on_ring` /
`get_max_control_packet_num_on_ring` (packet counts, embedded as ℕ;
`model.py` is not under `src/`). -/

/-- Embedding of `DataClock.get_clock_cycle` as a function of the ring length, speed
and `get_max_data_packet_num_on_ring()`. -/
def DataClock.get_clock_cycle (length speed : ℚ) (max_data_packet_num : ℕ) :
    Except String ℚ :=
  let circulation_time := length / speed * 10 ^ 9
  if max_data_packet_num % 2 ≠ 0 then
    .error "ValueError: This configuration would result in data packet transmission clock cycle not being a suitable number."
  else if max_data_packet_num = 0 then
    .error "ZeroDivisionError: float division by zero"
  else
    .ok (circulation_time / max_data_packet_num)

/-- Embedding of `ControlClock.get_clock_cycle` as a function of the ring length, speed
and `get_max_control_packet_num_on_ring()`. -/
def ControlClock.get_clock_cycle (length speed : ℚ) (max_control_packet_num : ℕ) :
    Except String ℚ :=
  let circulation_time := length / speed * 10 ^ 9
  if max_control_packet_num % 2 ≠ 0 then
    .error "ValueError: This configuration would result in control packet transmission clock cycle not being a suitable number."
  else if max_control_packet_num = 0 then
    .error "ZeroDivisionError: float division by zero"
  else
    .ok (circulation_time / max_control_packet_num)

/-! ## Distribution (`simulation/tools/distribution.py`)

`Distribution.poisson(until)` seeds the PRNG and then builds a LIST of
inter-arrival samples: starting from `[0]`, it repeatedly appends
`np.random.exponential(scale=1/b) + a` while the running sum is ≤ `until`,
and finally drops the leading `0`.  The exponential variates are embedded
as an oracle stream `draws : ℕ → ℚ` (the successive values returned by
`np.random.exponential(scale=1/b)`); the Python `while` loop is embedded
with a fuel parameter (the loop terminates for positive samples but Lean
requires a syntactic bound). -/

/-- Burst rate in packets/ns: `maximum_bit_rate / data_signal.size / 8`. -/
def poisson_sigma (maximum_bit_rate size : ℚ) : ℚ :=
  maximum_bit_rate / size / 8

/-- Average packet rate: `average_bit_rate / data_signal.size / 8`. -/
def poisson_lambda (average_bit_rate size : ℚ) : ℚ :=
  average_bit_rate / size / 8

/-- Position parameter `a = 1 / sigma`. -/
def poisson_a (maximum_bit_rate size : ℚ) : ℚ :=
  1 / poisson_sigma maximum_bit_rate size

/-- Shape parameter `b = (sigma * lambda_a) / (sigma - lambda_a)`. -/
def poisson_b (maximum_bit_rate average_bit_rate size : ℚ) : ℚ :=
  poisson_sigma maximum_bit_rate size * poisson_lambda average_bit_rate size /
    (poisson_sigma maximum_bit_rate size - poisson_lambda average_bit_rate size)

/-- The `scale` argument passed to `np.random.exponential` in
`Distribution.poisson`: `1 / b`. -/
def poisson_scale (maximum_bit_rate average_bit_rate size : ℚ) : ℚ :=
  1 / poisson_b maximum_bit_rate average_bit_rate size

/-- The sampling loop of `Distribution.poisson`: `acc` is the running sum
of the interarrival list built so far (which starts at `[0]`, i.e. `0`);
while `acc ≤ until`, append `draws k + a`. -/
def poissonLoop (a untl : ℚ) (draws : ℕ → ℚ) : ℕ → ℕ → ℚ → List ℚ
  | 0, _, _ => []
  | fuel + 1, k, acc =>
    if acc ≤ untl then
      (draws k + a) :: poissonLoop a untl draws fuel (k + 1) (acc + (draws k + a))
    else []

set_option linter.unusedVariables false in
/-- Embedding of `Distribution.poisson`: returns `interarrival[1:]`, the list of all
samples appended by the loop.  (`average_bit_rate` enters only through the
scale `1/b` of the exponential draws, recorded by `poisson_scale`.) -/
def Distribution.poisson (maximum_bit_rate average_bit_rate size untl : ℚ)
    (draws : ℕ → ℚ) (fuel : ℕ) : List ℚ :=
  poissonLoop (poisson_a maximum_bit_rate size) untl draws fuel 0 0

/-! ## RAM and fixed-transmitter state machine
(`simulation/process/ram.py`, `simulation/process/transmitter/fixed.py`)

The cooperative tasks are embedded as a transition system: one operation
per loop iteration of each task (the code suspends via `yield env.timeout`
at the end of every iteration).  Environment readings (`ring_is_full()`,
the slot checks) are inputs of the operation. -/

/-- An element of `RAM.queue`: `[timestamp, data_packet, destination_id]`.
In abstract mode the payload is the pair `[ram_id, abstract_data_id]`. -/
structure DataRecord where
  timestamp : ℚ
  data_packet : ℕ × ℕ
  destination_id : ℤ
  deriving DecidableEq, Repr

/-- Joint state of a RAM and its fixed transmitter:
`generated` is the RAM's `generated_data_packet` history restricted to
the queued fields, `queue` is `RAM.queue` (a `collections.deque`),
`transmitted` the sequence of records passed to `transmit_data_packet` by
`FT.transmit_on_data_ring` (never written: the `queue.pop(0)` preceding
every transmission raises, see `FTStep`), and the two FT handshake
flags. -/
structure FTState where
  generated : List DataRecord
  queue : List DataRecord
  transmitted : List DataRecord
  control_packet_transmitted : Bool
  data_packet_transmitted : Bool
  deriving DecidableEq, Repr

/-- Initial state: empty RAM and `FT.__init__` flags
`control_packet_transmitted = False`, `data_packet_transmitted = True`. -/
def FTState.init : FTState :=
  { generated := [], queue := [], transmitted := []
    control_packet_transmitted := false, data_packet_transmitted := true }

/-- One scheduler activation of the RAM generator or of one of the two FT
tasks.  `ring_full` is the reading of `ring_is_full()`, `present` the
first component of the respective slot check. -/
inductive FTOp where
  | ramGen (rec : DataRecord)
  | controlTask (ring_full present : Bool)
  | dataTask (present : Bool)
  deriving DecidableEq, Repr

/-- Transition function; `none` is a raised exception.
`ramGen` is `RAM.generate_data_packet`: append to the history and to the
`deque` (both `append` calls are valid on a `deque`; the destination draw
`self._distribution.uniform()` has no counterpart in src's
`Distribution` — modelled from the spec: `uniform(range)` yields the
destination carried by the operation).
`controlTask` is one iteration of `FT.transmit_on_control_ring`: when the
queue is non-empty, the previous data packet was sent, the data ring is
not full and the control slot is free, peek `queue[0]` (valid `deque`
indexing), inject the control packet and set the flags
(`transmit_control_packet` lives in the `BaseTransmitter` not under
`src/`; modelled from the spec as succeeding).
`dataTask` is one iteration of `FT.transmit_on_data_ring`: when a control
packet is outstanding and the data slot is free, the source executes
`self.ram.queue.pop(0)` — but `RAM.queue` is a `collections.deque`, whose
`pop()` takes NO argument, so this raises
`TypeError: pop() takes no arguments (1 given)` before any dequeue,
transmission or flag write. -/
def FTStep (s : FTState) : FTOp → Option FTState
  | .ramGen rec =>
    some { s with generated := s.generated ++ [rec], queue := s.queue ++ [rec] }
  | .controlTask ring_full present =>
    if s.queue ≠ [] ∧ s.data_packet_transmitted then
      if ¬ring_full then
        if ¬present then
          some { s with control_packet_transmitted := true
                        data_packet_transmitted := false }
        else some s
      else some s
    else some s
  | .dataTask present =>
    if s.control_packet_transmitted then
      if ¬present then
        none
      else some s
    else some s

/-- Run a sequence of activations from the initial state. -/
def runFT (ops : List FTOp) : Option FTState :=
  ops.foldlM FTStep FTState.init

/-! ## Tunable-receiver state machine
(`simulation/process/receiver/tunable.py`)

Control packets in abstract mode are the decimal triple
`[source, destination, control_code]` produced by
`ControlSignal.generate_packet`, carried as the `raw_packet` of a
six-field ring packet. -/

/-- TR state: the two handshake flags, `tune_to_ring` (initialised to the
receiver's own id and later overwritten with `packet[3]`, which in the
six-field ring packet is the entry position — a length in metres, hence
the field is ℚ) and the `tuned` flag. -/
structure TRState where
  control_packet_received : Bool
  data_packet_received : Bool
  tune_to_ring : ℚ
  tuned : Bool
  deriving DecidableEq, Repr

/-- Initial TR state from `TR.__init__`: `control_packet_received = False`,
`data_packet_received = True`, `tune_to_ring = receiver_id`,
`tuned = False`. -/
def TRState.init (receiver_id : ℤ) : TRState :=
  { control_packet_received := false, data_packet_received := true
    tune_to_ring := (receiver_id : ℚ), tuned := false }

/-- One scheduler activation of a TR task.  `controlTask` carries the
result of `check_control_packet()` (`none` = no packet present);
`dataTune` is the tuning suspension inside `receive_on_data_ring`;
`dataTask` carries the presence bit of `check_data_packet`. -/
inductive TROp where
  | controlTask (found : Option (Packet (ℤ × ℤ × ℤ)))
  | dataTune
  | dataTask (present : Bool)

/-- Transition function of the TR processes; `none` is a raised exception.
`controlTask` is one iteration of `TR.receive_on_control_ring`: when data
reception is ready and a control packet addressed to this receiver is
present, the source calls `receive_control_packet`, which invokes
`remove_packet(node_id=…, packet=…, timestamp=…)` — but
`Ring.remove_packet`'s parameter is named `reception_timestamp`, so
`TypeError: remove_packet() got an unexpected keyword argument` is raised
BEFORE the flag flips, the `tune_to_ring = packet[3]` assignment and the
`tuned` clear that follow it (tunable.py lines 77–83).
`dataTune` sets `tuned` before the `tuning_time` suspension; `dataTask`
is the remainder of a `receive_on_data_ring` iteration, whose
`receive_data_packet` raises the same `TypeError` before the flag
writes when a data packet is present. -/
def TRStep (receiver_id : ℤ) (s : TRState) : TROp → Option TRState
  | .controlTask found =>
    if s.data_packet_received then
      match found with
      | some pkt =>
        let (_source_id, destination_id, _control_code) := pkt.raw_packet
        if destination_id = receiver_id then
          none
        else some s
      | none => some s
    else some s
  | .dataTune =>
    some (if s.control_packet_received ∧ ¬s.tuned then { s with tuned := true } else s)
  | .dataTask present =>
    if s.control_packet_received then
      if present then
        none
      else some s
    else some s

/-- Run TR activations from the initial state; `none` when an activation
raised. -/
def runTR (receiver_id : ℤ) (ops : List TROp) : Option TRState :=
  ops.foldlM (TRStep receiver_id) (TRState.init receiver_id)

/-! ## Simulator initialisation (`simulation/simulator/base.py`)

`BaseSimulator.initialise` first rejects the FT-FR and TT-TR combinations
with `NotImplementedError`, then for each node creates and initialises the
RAM, the transmitter and the receiver in that order.  Python's call
protocol is part of the embedding because the source's calls do not match
the callees' signatures:

* `RAM.__init__` evaluates `self._interarrival = self.get_interarrival()`,
  and `RAM.get_interarrival` calls `self._distribution.pareto()` /
  `self._distribution.poisson()` with NO arguments, while
  `Distribution.pareto(self, until, hurst_parameter=0.8)` and
  `Distribution.poisson(self, until)` each require the positional
  argument `until` — a `TypeError` at RAM construction;
* `_initialise_transmitter` passes the keyword `simulator=` to
  `FT.__init__(self, env, ram, transmitter_id, model=None)`, and
  `_initialise_receiver` passes `until=` and `simulator=` to
  `TR.__init__(self, env, receiver_id, model=None)` — `TypeError`s as
  well (never reached, the RAM fails first). -/

/-- The set `{'fixed', 'f', 'F'}` from `BaseSimulator.__init__`. -/
def fixed_keywords : List String := ["fixed", "f", "F"]

/-- The set `{'tunable', 't', 'T'}` from `BaseSimulator.__init__`. -/
def tunable_keywords : List String := ["tunable", "t", "T"]

/-- Required positional arguments (beyond `self`) of
`Distribution.poisson(self, until)`. -/
def poisson_required_args : ℕ := 1

/-- Required positional arguments (beyond `self`) of
`Distribution.pareto(self, until, hurst_parameter=0.8)`. -/
def pareto_required_args : ℕ := 1

/-- Arguments supplied by `RAM.get_interarrival` to
`self._distribution.pareto()` / `self._distribution.poisson()`: none. -/
def get_interarrival_supplied_args : ℕ := 0

/-- Embedding of `RAM.get_interarrival`: dispatches on `distribution_type`; both
branches call the distribution method with too few arguments, raising
`TypeError`; any other type falls through returning `None`. -/
def RAM.get_interarrival (distribution_type : String) : Except String (Option ℚ) :=
  if distribution_type = "pareto" then
    if get_interarrival_supplied_args < pareto_required_args then
      .error "TypeError: pareto() missing 1 required positional argument: until"
    else .ok none
  else if distribution_type = "poisson" then
    if get_interarrival_supplied_args < poisson_required_args then
      .error "TypeError: poisson() missing 1 required positional argument: until"
    else .ok none
  else .ok none

/-- Embedding of `RAM.__init__` up to its first fallible statement
`self._interarrival = self.get_interarrival()`. -/
def RAM.init (distribution_type : String) : Except String Unit :=
  (RAM.get_interarrival distribution_type).map fun _ => ()

/-- Parameter names of `FT.__init__` (fixed.py). -/
def FT_init_params : List String := ["env", "ram", "transmitter_id", "model"]

/-- Parameter names of `TR.__init__` (tunable.py). -/
def TR_init_params : List String := ["env", "receiver_id", "model"]

/-- Keyword arguments passed by `BaseSimulator._initialise_transmitter`
when constructing an `FT`. -/
def initialise_transmitter_kwargs : List String :=
  ["env", "ram", "transmitter_id", "model", "simulator"]

/-- Keyword arguments passed by `BaseSimulator._initialise_receiver`
when constructing a `TR`. -/
def initialise_receiver_kwargs : List String :=
  ["env", "until", "receiver_id", "model", "simulator"]

/-- Python keyword-argument binding: a keyword with no matching parameter
raises `TypeError: __init__() got an unexpected keyword argument`. -/
def python_kwargs_call (params kwargs : List String) : Except String Unit :=
  match kwargs.find? (fun k => decide (k ∉ params)) with
  | some k => .error ("TypeError: __init__() got an unexpected keyword argument: " ++ k)
  | none => .ok ()

/-- Embedding of `BaseSimulator._initialise_transmitter`: construct `FT` or `TT` by
transmitter type, else `NotImplementedError`.  `TT`
(transmitter/tunable.py) is not under `src/`; modelled from the spec:
TT construction succeeds. -/
def BaseSimulator.initialise_transmitter (transmitter_type : String) :
    Except String Unit :=
  if transmitter_type ∈ fixed_keywords then
    python_kwargs_call FT_init_params initialise_transmitter_kwargs
  else if transmitter_type ∈ tunable_keywords then
    .ok ()
  else .error "NotImplementedError: Transmitter type not implemented."

/-- Embedding of `BaseSimulator._initialise_receiver`: construct `FR` or `TR` by
receiver type, else `NotImplementedError`.  `FR` (receiver/fixed.py) is
not under `src/`; modelled from the spec: FR construction succeeds. -/
def BaseSimulator.initialise_receiver (receiver_type : String) :
    Except String Unit :=
  if receiver_type ∈ fixed_keywords then
    .ok ()
  else if receiver_type ∈ tunable_keywords then
    python_kwargs_call TR_init_params initialise_receiver_kwargs
  else .error "NotImplementedError: Receiver type not implemented."

/-- The per-node body of `BaseSimulator.initialise`: RAM, transmitter and
receiver creation in order. -/
def BaseSimulator.initialise_node
    (transmitter_type receiver_type traffic_generation_method : String) :
    Except String Unit := do
  RAM.init traffic_generation_method
  BaseSimulator.initialise_transmitter transmitter_type
  BaseSimulator.initialise_receiver receiver_type

/-- Embedding of `BaseSimulator.initialise`: the two combination checks come first
(before any RAM, transmitter or receiver is created); then the per-node
initialisation loop over `range(num_nodes)`. -/
def BaseSimulator.initialise
    (transmitter_type receiver_type traffic_generation_method : String)
    (num_nodes : ℕ) : Except String Unit :=
  if transmitter_type ∈ fixed_keywords ∧ receiver_type ∈ fixed_keywords then
    .error "NotImplementedError: The FT-FR model is not implemented."
  else if transmitter_type ∈ tunable_keywords ∧ receiver_type ∈ tunable_keywords then
    .error "NotImplementedError: The TT-TR model is not implemented."
  else
    (List.range num_nodes).foldlM
      (fun _ _ =>
        BaseSimulator.initialise_node transmitter_type receiver_type
          traffic_generation_method)
      ()

/-! ## Concrete configurations used by the claim theorems and witnesses -/

/-- Two nodes on a 10 km ring at `2·10⁸` m/s (spec scenario 1). -/
def c1_model : Model := ⟨10000, 200000000, 2⟩

/-- A packet injected at node 0 (entry position 0) at time 0. -/
def c1_packet : Packet ℕ := ⟨0, 0, 0, 0, 0, 1⟩

/-- A non-reversed nanosecond ring holding `c1_packet`. -/
def c1_ring : Ring ℕ := { model := c1_model, packets := [c1_packet] }

/-- Model of the C3 scenario: two nodes, 10 km ring. -/
def c3_model : Model := ⟨10000, 200000000, 2⟩

/-- The six-field control packet put on the control ring by
`Ring.add_packet` for source node 1, destination node 0, abstract raw
control packet `[1, 0, 0]`: its fourth element (`packet[3]`) is the entry
POSITION `5000.0` m, its fifth (`packet[4]`) the source node id `1`. -/
def c3_control_packet : Packet (ℤ × ℤ × ℤ) := ⟨(1, 0, 0), 0, 0, 5000, 1, 0⟩

/-- The right-hand side of the assignment `self.tune_to_ring = packet[3]`
at tunable.py line 82: index 3 of the six-field ring packet is the
`packet_entry_point` field (the entry position in metres). -/
def tune_to_ring_assignment (pkt : Packet (ℤ × ℤ × ℤ)) : ℚ :=
  pkt.packet_entry_point

/-- A two-node ring whose length `0.0200003` m places node 1's position
within the end-of-ring snap tolerance of `L` but outside the match
tolerance of position `0`. -/
def c8_model : Model := ⟨200003 / 10 ^ 7, 200000000, 2⟩

/-- A packet injected by node 1 at time 0 on the `c8_model` ring. -/
def c8_packet : Packet ℕ := ⟨0, 0, 0, nodes_location c8_model 1, 1, 0⟩

/-- The non-reversed nanosecond ring holding `c8_packet`. -/
def c8_ring : Ring ℕ := { model := c8_model, packets := [c8_packet] }

/-- A packet injected by node 1 at time 0 on the 10 km two-node ring. -/
def c8w_packet : Packet ℕ := ⟨0, 0, 0, nodes_location c1_model 1, 1, 0⟩

/-- The non-reversed nanosecond ring holding `c8w_packet` (C8 witness). -/
def c8w_ring : Ring ℕ := { model := c1_model, packets := [c8w_packet] }

/-- An empty two-node ring for the `add_packet` claims. -/
def c6_ring : Ring ℕ := { model := ⟨10000, 200000000, 2⟩ }

/-- The ring produced by `c6_ring.add_packet 0 1 7 0 0`. -/
def c10_result : Ring ℕ :=
  { model := c6_ring.model
    packets := [⟨7, 0, 0, nodes_location c6_ring.model (numpy_index 0 2), 0, 1⟩]
    packet_count := 1
    packet_record := [⟨0, 0, none, 7, 0, 1, .added, 1⟩] }

/-- One generated data record (time 100 ns, abstract payload `(0, 0)`,
destination node 1). -/
def c2_record : DataRecord := ⟨100, (0, 0), 1⟩

/-- Generate one packet, then send its control packet. -/
def c2_ops : List FTOp :=
  [.ramGen c2_record, .controlTask false false]

/-- The suspension-point state reached by `runFT c2_ops`: the control
packet for `c2_record` is out, the record is still queued, and the data
task is armed (`control_packet_transmitted`). -/
def c2_blocked : FTState := ⟨[c2_record], [c2_record], [], true, false⟩

/-- A TR activation sequence with no packet addressed to the receiver:
an empty control check, the tuning suspension, an empty data check. -/
def c9_tr_ops : List TROp :=
  [.controlTask none, .dataTune, .dataTask false]

/-! ## Helper lemmas -/

/-- The value of `pymod` lands in `[0, L)` for a positive divisor. -/
lemma pymod_bounds {L : ℚ} (hL : 0 < L) (x : ℚ) : 0 ≤ pymod x L ∧ pymod x L < L := by
  unfold pymod
  have h1 : (⌊x / L⌋ : ℚ) ≤ x / L := Int.floor_le (x / L)
  have h2 : x / L < (⌊x / L⌋ : ℚ) + 1 := Int.lt_floor_add_one (x / L)
  have hmul1 : L * (⌊x / L⌋ : ℚ) ≤ L * (x / L) := by
    exact mul_le_mul_of_nonneg_left h1 hL.le
  have hmul2 : L * (x / L) < L * ((⌊x / L⌋ : ℚ) + 1) := by
    exact (mul_lt_mul_left hL).mpr h2
  have hx : L * (x / L) = x := by
    field_simp
  constructor
  · linarith
  · nlinarith

/-- The function `pymod` is the identity on `[0, L)`. -/
lemma pymod_eq_self {L x : ℚ} (hL : 0 < L) (h0 : 0 ≤ x) (h1 : x < L) :
    pymod x L = x := by
  unfold pymod
  have hfl : ⌊x / L⌋ = 0 := by
    rw [Int.floor_eq_zero_iff]
    constructor
    · exact div_nonneg h0 hL.le
    · rwa [div_lt_one hL]
  rw [hfl]
  simp

/-- Shifting the argument by the divisor does not change `pymod`. -/
lemma pymod_add_left {L x : ℚ} (hL : L ≠ 0) : pymod (x + L) L = pymod x L := by
  unfold pymod
  have harg : (x + L) / L = x / L + 1 := by
    field_simp
  rw [harg, Int.floor_add_one]
  push_cast
  ring

/-- Shifting the argument down by the divisor does not change `pymod`. -/
lemma pymod_sub_left {L x : ℚ} (hL : L ≠ 0) : pymod (x - L) L = pymod x L := by
  unfold pymod
  have harg : (x - L) / L = x / L - 1 := by
    field_simp
  rw [harg, Int.floor_sub_one]
  push_cast
  ring

/-- Reflexivity: `np.isclose x x` always holds (the tolerance is positive). -/
lemma npIsClose_self (x : ℚ) : npIsClose x x = true := by
  unfold npIsClose
  simp only [sub_self, abs_zero, decide_eq_true_eq]
  positivity

/-- The recursive scan of `check_packet` agrees with `List.find?`. -/
lemma checkScan_eq_find? (pred : Packet α → Bool) (l : List (Packet α)) :
    checkScan pred l = match l.find? pred with
      | some p => (true, some p)
      | none => (false, none) := by
  induction l with
  | nil => rfl
  | cons p ps ih =>
    by_cases h : pred p <;> simp [checkScan, List.find?_cons, h, ih]

/-- The scan only depends on the predicate's values on the list. -/
lemma checkScan_congr {pred₁ pred₂ : Packet α → Bool} :
    ∀ {l : List (Packet α)}, (∀ p ∈ l, pred₁ p = pred₂ p) →
      checkScan pred₁ l = checkScan pred₂ l := by
  intro l
  induction l with
  | nil => intro _; rfl
  | cons p ps ih =>
    intro h
    have hp := h p (List.mem_cons_self p ps)
    simp only [checkScan, hp]
    by_cases hc : pred₂ p
    · simp [hc]
    · simp only [hc, if_false, Bool.false_eq_true]
      exact ih fun q hq => h q (List.mem_cons_of_mem p hq)

/-- If some member satisfies the predicate, the scan reports `true`. -/
lemma checkScan_fst_true {pred : Packet α → Bool} {p : Packet α} :
    ∀ {l : List (Packet α)}, p ∈ l → pred p = true → (checkScan pred l).1 = true := by
  intro l
  induction l with
  | nil => intro h; exact absurd h (List.not_mem_nil p)
  | cons q qs ih =>
    intro hmem hpred
    by_cases hq : pred q
    · simp [checkScan, hq]
    · rcases List.mem_cons.mp hmem with rfl | hmem'
      · exact absurd hpred (by simp [hq])
      · simpa [checkScan, hq] using ih hmem' hpred

/-- Equivalence of the spec's reversed-ring mirror (taken `mod L`, followed
by the end-of-ring snap) with the source's mirror (conditional `± L`
correction, followed by the same snap), for `0 ≤ e < L` and a wrapped
position `0 ≤ x < L`.  The two mirrors differ only when the mirrored value
is exactly `L`, where the code keeps `L` and the `mod` form gives `0`; the
snap sends both to `0`. -/
lemma mirror_snap_eq {L e x : ℚ} (hL : 0 < L) (he0 : 0 ≤ e) (heL : e < L)
    (hx0 : 0 ≤ x) (hxL : x < L) :
    (if npIsClose (pymod (e - (x - e)) L) L then (0 : ℚ)
     else pymod (e - (x - e)) L) =
    (if npIsClose (if e - (x - e) < 0 then e - (x - e) + L
        else if e - (x - e) > L then e - (x - e) - L
        else e - (x - e)) L then (0 : ℚ)
     else if e - (x - e) < 0 then e - (x - e) + L
        else if e - (x - e) > L then e - (x - e) - L
        else e - (x - e)) := by
  set m2 := e - (x - e) with hm2
  rcases lt_or_le m2 0 with hneg | hnn
  · -- mirrored value below 0: the code adds L, `mod` does the same
    have hgt : -L < m2 := by
      have hxm : -x ≤ m2 := by rw [hm2]; linarith
      linarith
    have hspec : pymod m2 L = m2 + L := by
      rw [← pymod_add_left (x := m2) hL.ne',
        pymod_eq_self hL (by linarith) (by linarith)]
    rw [hspec, if_pos hneg]
  · rcases lt_or_le L m2 with hbig | hsmall
    · -- mirrored value above L: the code subtracts L, `mod` does the same
      have hlt : m2 < 2 * L := by
        have hm2e : m2 ≤ 2 * e := by rw [hm2]; linarith
        linarith
      have hspec : pymod m2 L = m2 - L := by
        rw [← pymod_sub_left (x := m2) hL.ne',
          pymod_eq_self hL (by linarith) (by linarith)]
      rw [hspec, if_neg (not_lt.mpr hnn), if_pos hbig]
    · rcases eq_or_lt_of_le hsmall with heq | hlt
      · -- exactly L: code keeps L (snapped to 0 by isclose), `mod` gives 0
        have hzero : pymod m2 L = 0 := by
          rw [heq]
          have h0L : pymod (0 + L) L = pymod 0 L := pymod_add_left hL.ne'
          rw [zero_add] at h0L
          rw [h0L, pymod_eq_self hL le_rfl hL]
        rw [hzero, if_neg (not_lt.mpr hnn), if_neg (not_lt.mpr hsmall), heq,
          npIsClose_self]
        simp only [if_true]
        by_cases hc : npIsClose 0 L <;> simp [hc]
      · have hspec : pymod m2 L = m2 := pymod_eq_self hL hnn hlt
        rw [hspec, if_neg (not_lt.mpr hnn), if_neg (not_lt.mpr hsmall)]

/-- Per-packet equivalence of the claim-style position computation with the
source's `Ring.check_packet` position computation, for a positive ring
length and an on-ring entry position. -/
lemma claimed_location_eq_source (r : Ring α) (p : Packet α) (t : ℚ)
    (hns : r.time_unit = .ns) (hL : 0 < r.model.length)
    (he0 : 0 ≤ p.packet_entry_point)
    (heL : p.packet_entry_point < r.model.length) :
    claimed_location npIsClose r.model r.reversed p t =
      r.packet_location_on_ring p t := by
  unfold claimed_location Ring.packet_location_on_ring
  rw [hns]
  simp only [unit_factor]
  cases hrev : r.reversed with
  | false => simp
  | true =>
    simp only [if_true]
    exact mirror_snap_eq hL he0 heL
      (pymod_bounds hL _).1 (pymod_bounds hL _).2

/-! ## Claim C5 -/

/-- Claim C5 (confirmed): constructing a `DataClock` (resp. `ControlClock`)
raises an error at initialisation whenever the maximum number of data
(resp. control) packets on the ring is not a positive even integer
(`ValueError` for an odd count, `ZeroDivisionError` for zero); otherwise
`clock_cycle` is the circulation time `length / speed * 1e9` (ns) divided
by that maximum number. -/
theorem clock_cycle_positive_even (length speed : ℚ) (M : ℕ) :
    ((DataClock.get_clock_cycle length speed M).isOk ↔ 0 < M ∧ M % 2 = 0) ∧
    ((ControlClock.get_clock_cycle length speed M).isOk ↔ 0 < M ∧ M % 2 = 0) ∧
    (0 < M → M % 2 = 0 →
      DataClock.get_clock_cycle length speed M =
        .ok (length / speed * 10 ^ 9 / (M : ℚ)) ∧
      ControlClock.get_clock_cycle length speed M =
        .ok (length / speed * 10 ^ 9 / (M : ℚ))) := by
  unfold DataClock.get_clock_cycle ControlClock.get_clock_cycle
  refine ⟨?_, ?_, ?_⟩
  · split_ifs with h1 h2
    · exact ⟨fun h => absurd h (by simp [Except.isOk, Except.toBool]), fun h => absurd h.2 h1⟩
    · exact ⟨fun h => absurd h (by simp [Except.isOk, Except.toBool]),
        fun h => (Nat.lt_irrefl 0 (h2 ▸ h.1)).elim⟩
    · exact ⟨fun _ => by omega, fun _ => rfl⟩
  · split_ifs with h1 h2
    · exact ⟨fun h => absurd h (by simp [Except.isOk, Except.toBool]), fun h => absurd h.2 h1⟩
    · exact ⟨fun h => absurd h (by simp [Except.isOk, Except.toBool]),
        fun h => (Nat.lt_irrefl 0 (h2 ▸ h.1)).elim⟩
    · exact ⟨fun _ => by omega, fun _ => rfl⟩
  · intro hpos heven
    rw [if_neg (by omega), if_neg (by omega), if_neg (by omega), if_neg (by omega)]
    exact ⟨rfl, rfl⟩

/-- Witness for C5 at `length = 10000`, `speed = 2·10⁸`, `M = 4`. -/
theorem clock_cycle_positive_even_witness :
    DataClock.get_clock_cycle 10000 200000000 4 =
      .ok (10000 / 200000000 * 10 ^ 9 / ((4 : ℕ) : ℚ)) ∧
    ControlClock.get_clock_cycle 10000 200000000 4 =
      .ok (10000 / 200000000 * 10 ^ 9 / ((4 : ℕ) : ℚ)) :=
  (clock_cycle_positive_even 10000 200000000 4).2.2 (by norm_num) (by norm_num)

/-! ## Claim C7 -/

/-- Every sample appended by the poisson loop is the corresponding
exponential draw plus the position parameter `a`. -/
lemma poissonLoop_getD (a untl : ℚ) (draws : ℕ → ℚ) :
    ∀ (fuel k i : ℕ) (acc : ℚ), i < (poissonLoop a untl draws fuel k acc).length →
      (poissonLoop a untl draws fuel k acc).getD i 0 = draws (k + i) + a := by
  intro fuel
  induction fuel with
  | zero => intro k i acc h; simp [poissonLoop] at h
  | succ n ih =>
    intro k i acc h
    unfold poissonLoop at h ⊢
    by_cases hc : acc ≤ untl
    · rw [if_pos hc] at h ⊢
      cases i with
      | zero => simp
      | succ j =>
        simp only [List.getD_cons_succ]
        have hlen : j < (poissonLoop a untl draws n (k + 1) (acc + (draws k + a))).length := by
          simpa using h
        have hrec := ih (k + 1) j (acc + (draws k + a)) hlen
        have harith : k + 1 + j = k + (j + 1) := by omega
        rwa [harith] at hrec
    · rw [if_neg hc] at h
      simp at h

/-- Counterexample to claim C7 as stated: a single call of
`Distribution.poisson` (here with `until = 6`, σ = 2 bit/s, λ = 1 bit/s,
packet size 1 byte, all exponential draws `0`) returns the two-element
list `[4, 4]`, not one inter-arrival sample. -/
theorem poisson_single_sample_counterexample :
    Distribution.poisson 2 1 1 6 (fun _ => 0) 10 = [4, 4] ∧
    (Distribution.poisson 2 1 1 6 (fun _ => 0) 10).length ≠ 1 := by
  have h : Distribution.poisson 2 1 1 6 (fun _ => 0) 10 = [4, 4] := by
    norm_num [Distribution.poisson, poissonLoop, poisson_a, poisson_sigma]
  exact ⟨h, by rw [h]; decide⟩

/-- Claim C7 (amended): each call of `Distribution.poisson` returns a LIST
of inter-arrival samples, each of which is an exponential draw plus
`a = 1/σ_pkt`, where the exponential scale passed to the PRNG is `1/b`
with `b = (σ_pkt · λ_pkt)/(σ_pkt − λ_pkt)`, `σ_pkt = σ/(8·S_d)` and
`λ_pkt = λ_a/(8·S_d)`. -/
theorem poisson_sample_structure
    (maximum_bit_rate average_bit_rate size untl : ℚ) (draws : ℕ → ℚ)
    (fuel i : ℕ)
    (h : i < (Distribution.poisson maximum_bit_rate average_bit_rate size untl
        draws fuel).length) :
    (Distribution.poisson maximum_bit_rate average_bit_rate size untl draws
        fuel).getD i 0 = draws i + 1 / (maximum_bit_rate / (8 * size)) ∧
    poisson_scale maximum_bit_rate average_bit_rate size =
      1 / (maximum_bit_rate / (8 * size) * (average_bit_rate / (8 * size)) /
        (maximum_bit_rate / (8 * size) - average_bit_rate / (8 * size))) := by
  constructor
  · have hrec := poissonLoop_getD (poisson_a maximum_bit_rate size) untl draws fuel 0 i 0
      (by simpa [Distribution.poisson] using h)
    simp only [Nat.zero_add] at hrec
    rw [Distribution.poisson] at *
    rw [hrec]
    unfold poisson_a poisson_sigma
    rw [div_div, mul_comm size 8]
  · unfold poisson_scale poisson_b poisson_sigma poisson_lambda
    simp only [div_div]
    ring_nf

/-- Witness for C7 at the concrete parameters of the counterexample. -/
theorem poisson_sample_structure_witness :
    (Distribution.poisson 2 1 1 6 (fun _ => 0) 10).getD 0 0 =
      (fun _ => (0 : ℚ)) 0 + 1 / (2 / (8 * 1)) ∧
    poisson_scale 2 1 1 =
      1 / (2 / (8 * 1) * (1 / (8 * 1)) / (2 / (8 * 1) - 1 / (8 * 1))) :=
  poisson_sample_structure 2 1 1 6 (fun _ => 0) 10 0
    (by norm_num [Distribution.poisson, poissonLoop, poisson_a, poisson_sigma])

/-! ## Claim C4 -/

/-- Claim C4 (code bug): the unimplemented FT-FR and TT-TR combinations are
rejected with `NotImplementedError` before any RAM, transmitter or
receiver is created — but the supported combinations (fixed, tunable) and
(tunable, fixed) do NOT complete initialisation: the first RAM's
construction evaluates `self.get_interarrival()`, which calls
`Distribution.poisson()` without the required `until` argument and raises
`TypeError` (the repository's own tests
`test_transmitter_data_packet_transmission.py` expect these two
combinations to initialise and run). -/
theorem base_simulator_initialise_code_bug :
    BaseSimulator.initialise "fixed" "fixed" "poisson" 2 =
      .error "NotImplementedError: The FT-FR model is not implemented." ∧
    BaseSimulator.initialise "tunable" "tunable" "poisson" 2 =
      .error "NotImplementedError: The TT-TR model is not implemented." ∧
    BaseSimulator.initialise "fixed" "tunable" "poisson" 2 =
      .error "TypeError: poisson() missing 1 required positional argument: until" ∧
    BaseSimulator.initialise "tunable" "fixed" "poisson" 2 =
      .error "TypeError: poisson() missing 1 required positional argument: until" := by
  refine ⟨?_, ?_, ?_, ?_⟩ <;> rfl

/-! ## Claim C3 -/

/-- Claim C3 (code bug): when a TR matches a control packet destined to
it, the source first calls `receive_control_packet`, whose
`remove_packet(..., timestamp=...)` call raises `TypeError`
(`Ring.remove_packet`'s parameter is `reception_timestamp`) — embedded
faithfully, the matching control step crashes (`none`) before any flag or
`tune_to_ring` write.  Had execution reached the assignment
`self.tune_to_ring = packet[3]` (tunable.py line 82), it would store the
entry position in metres (5000.0 here, under the six-field packet layout
built by `Ring.add_packet`), NOT the source node id (1) that the spec and
`receiver/base.py`'s own four-field docstrings
(`[raw_packet, timestamp, entry_point, source_node_id]`) prescribe. -/
theorem tr_tunes_to_entry_position_not_source :
    (Ring.add_packet { model := c3_model } 1 0 ((1 : ℤ), (0 : ℤ), (0 : ℤ)) 0 0).map
        (fun r => r.packets) = .ok [c3_control_packet] ∧
    c3_control_packet.packet_entry_point = 5000 ∧
    c3_control_packet.entry_node_id = 1 ∧
    tune_to_ring_assignment c3_control_packet = c3_control_packet.packet_entry_point ∧
    tune_to_ring_assignment c3_control_packet ≠ (c3_control_packet.entry_node_id : ℚ) ∧
    TRStep 0 (TRState.init 0) (.controlTask (some c3_control_packet)) = none := by
  refine ⟨?_, rfl, rfl, rfl, ?_, rfl⟩
  · norm_num [Ring.add_packet, nodes_location, numpy_index, c3_model, Except.map,
      c3_control_packet]
  · show (5000 : ℚ) ≠ ((1 : ℤ) : ℚ)
    norm_num

/-! ## Claim C1 -/

/-- Counterexample to claim C1 as stated: on the two-node 10 km ring, the
packet injected at position 0 sits at computed position `9999.95` m at
`t = 49999.75` ns.  With the claim's plain ε = `1e-2` it is neither
snapped to 0 (`|9999.95 − 10000| = 0.05 > ε`) nor detected at node 0, so
the claimed check returns `(False, None)`; the source's
`np.isclose(·, ·, atol=1e-2)` keeps the default `rtol = 1e-5`, giving
tolerance `0.01 + 1e-5·10000 = 0.11` at `L`, so the code snaps the packet
to 0 and returns it at node 0. -/
theorem check_packet_epsilon_counterexample :
    Ring.check_packet c1_ring (199999 / 4) 0 = (true, some c1_packet) ∧
    ring_check_claimed c1_ring (199999 / 4) 0 = (false, none) := by
  constructor
  · norm_num [Ring.check_packet, checkScan, Ring.packet_location_on_ring, npIsClose,
      pymod, nodes_location, unit_factor, c1_ring, c1_model, c1_packet,
      abs_of_nonneg, abs_of_nonpos, abs_sub_comm]
  · norm_num [ring_check_claimed, claimed_check, claimed_location, epsClose, pymod,
      nodes_location, List.find?, c1_ring, c1_model, c1_packet,
      abs_of_nonneg, abs_of_nonpos, abs_sub_comm]

/-- Claim C1 (amended): for every nanosecond ring of positive length whose
live packets entered at on-ring positions, `Ring.check_packet` scans the
live packets in insertion order, computes
`pos = entry + (t − tx)·v·1e-9`, `pos_ring = pos mod L`, mirrors about the
entry position modulo `L` when the ring is reversed, snaps `pos_ring` to 0
when `np.isclose` to `L`, and returns the first packet whose position is
`np.isclose` to `node_positions[node_id]` — where `np.isclose(x, y)` is
`|x − y| ≤ 1e-2 + 1e-5·|y|` (atol `1e-2` with NumPy's default rtol
`1e-5`), not the claim's plain ε = `1e-2`. -/
theorem check_packet_isclose_equiv {α} (r : Ring α) (t : ℚ) (node_id : ℕ)
    (hns : r.time_unit = .ns) (hL : 0 < r.model.length)
    (hpk : ∀ p ∈ r.packets, 0 ≤ p.packet_entry_point ∧
      p.packet_entry_point < r.model.length) :
    ring_check_amended r t node_id = r.check_packet t node_id := by
  unfold ring_check_amended claimed_check Ring.check_packet
  rw [← checkScan_eq_find?]
  exact checkScan_congr fun p hp => by
    rw [claimed_location_eq_source r p t hns hL (hpk p hp).1 (hpk p hp).2]

/-- Witness for C1 on the counterexample ring. -/
theorem check_packet_isclose_equiv_witness :
    ring_check_amended c1_ring (199999 / 4) 0 = c1_ring.check_packet (199999 / 4) 0 :=
  check_packet_isclose_equiv c1_ring (199999 / 4) 0 rfl
    (by show (0 : ℚ) < 10000; norm_num)
    (by
      intro p hp
      simp only [c1_ring, List.mem_singleton] at hp
      subst hp
      exact ⟨le_refl 0, by show (0 : ℚ) < 10000; norm_num⟩)

/-! ## Claim C8 -/

/-- Counterexample to claim C8 as stated: on the `c8_model` ring, the
packet from source node 1 (entry `0.01000015` m) returns to exactly its
entry position after one circulation `T = L/v`, but the end-of-ring snap
fires (`L − 0.01000015 ≤ 0.01 + 1e-5·L`), relocating it to position 0,
which is NOT within tolerance of node 1's position — so `check_packet`
at `tx + T` reports no packet at the source node. -/
theorem check_packet_circulation_counterexample :
    c8_packet ∈ c8_ring.packets ∧ c8_ring.reversed = false ∧
    c8_ring.time_unit = .ns ∧ c8_packet.entry_node_id = 1 ∧
    nodes_location c8_ring.model 1 = c8_packet.packet_entry_point ∧
    c8_ring.check_packet
      (c8_packet.transmission_timestamp +
        c8_ring.model.length / c8_ring.model.speed * 10 ^ 9) 1 = (false, none) := by
  refine ⟨by simp [c8_ring], rfl, rfl, rfl, rfl, ?_⟩
  norm_num [Ring.check_packet, checkScan, Ring.packet_location_on_ring, npIsClose,
    pymod, nodes_location, unit_factor, c8_ring, c8_model, c8_packet,
    abs_of_nonneg, abs_of_nonpos, abs_sub_comm]

/-- Claim C8 (amended): for every packet on a non-reversed nanosecond ring
of positive length and nonzero speed, whose entry position is the
position of its source node, lies on the ring, and is NOT within the
`np.isclose` snap tolerance of `L`, `check_packet` at
`tx + T` (`T = L/v·1e9` ns, one full circulation) reports a packet
present at the packet's source node. -/
theorem check_packet_circulation_roundtrip {α} (r : Ring α) (p : Packet α) (n : ℕ)
    (hns : r.time_unit = .ns) (hrev : r.reversed = false)
    (hL : 0 < r.model.length) (hv : r.model.speed ≠ 0)
    (hp : p ∈ r.packets)
    (hpos : nodes_location r.model n = p.packet_entry_point)
    (he0 : 0 ≤ p.packet_entry_point)
    (heL : p.packet_entry_point < r.model.length)
    (hsnap : npIsClose p.packet_entry_point r.model.length = false) :
    (r.check_packet
      (p.transmission_timestamp + r.model.length / r.model.speed * 10 ^ 9) n).1
      = true := by
  unfold Ring.check_packet
  apply checkScan_fst_true hp
  have hloc : r.packet_location_on_ring p
      (p.transmission_timestamp + r.model.length / r.model.speed * 10 ^ 9)
      = p.packet_entry_point := by
    unfold Ring.packet_location_on_ring
    rw [hns, hrev]
    have harg : p.packet_entry_point +
        (p.transmission_timestamp + r.model.length / r.model.speed * 10 ^ 9 -
          p.transmission_timestamp) * r.model.speed * unit_factor .ns
        = p.packet_entry_point + r.model.length := by
      unfold unit_factor
      field_simp
      ring
    simp only [Bool.false_eq_true, if_false]
    rw [harg, pymod_add_left hL.ne', pymod_eq_self hL he0 heL, hsnap]
    simp only [Bool.false_eq_true, if_false]
  rw [hloc, hpos, npIsClose_self]

/-- Witness for C8: a two-node 10 km ring, packet from node 1 checked one
circulation after transmission. -/
theorem check_packet_circulation_roundtrip_witness :
    (c8w_ring.check_packet
      (c8w_packet.transmission_timestamp +
        c8w_ring.model.length / c8w_ring.model.speed * 10 ^ 9) 1).1 = true :=
  check_packet_circulation_roundtrip c8w_ring c8w_packet 1 rfl rfl
    (by show (0 : ℚ) < 10000; norm_num)
    (by show (200000000 : ℚ) ≠ 0; norm_num)
    (List.mem_singleton.mpr rfl) rfl
    (by show (0 : ℚ) ≤ nodes_location c1_model 1; norm_num [nodes_location, c1_model])
    (by show nodes_location c1_model 1 < (10000 : ℚ); norm_num [nodes_location, c1_model])
    (by show npIsClose (nodes_location c1_model 1) (10000 : ℚ) = false
        norm_num [npIsClose, nodes_location, c1_model, abs_of_nonneg, abs_of_nonpos])

/-! ## Claim C6 -/

/-- Counterexample to claim C6 as stated: `add_packet` with `node_id = -1`
(outside `0..N-1`) does NOT fail — NumPy's negative indexing silently
wraps, appending a packet whose entry position is `node_positions[N-1]`
(`5000.0` on the two-node 10 km ring). -/
theorem add_packet_out_of_range_counterexample :
    (c6_ring.add_packet (-1) 0 7 0 0).isOk = true ∧
    ((c6_ring.add_packet (-1) 0 7 0 0).map fun r =>
      r.packets.map fun p => p.packet_entry_point) = .ok [5000] := by
  constructor
  · rfl
  · norm_num [Ring.add_packet, nodes_location, numpy_index, c6_ring, Except.map]

/-- Claim C6 (amended): `Ring.add_packet` fails (NumPy `IndexError`)
exactly when `node_id < -N` or `node_id ≥ N`; for `0 ≤ node_id < N` it
appends a new packet whose entry position is `node_positions[node_id]`,
and for `-N ≤ node_id < 0` (Python negative indexing) one whose entry
position is `node_positions[N + node_id]`. -/
theorem add_packet_index_semantics {α} (r : Ring α) (node_id destination_id : ℤ)
    (pkt : α) (g t : ℚ) :
    ((r.add_packet node_id destination_id pkt g t).isOk ↔
      -(r.model.num_nodes : ℤ) ≤ node_id ∧ node_id < (r.model.num_nodes : ℤ)) ∧
    (0 ≤ node_id → node_id < (r.model.num_nodes : ℤ) →
      ∃ r', r.add_packet node_id destination_id pkt g t = .ok r' ∧
        r'.packets = r.packets ++
          [⟨pkt, g, t, nodes_location r.model node_id.toNat, node_id,
            destination_id⟩]) ∧
    (-(r.model.num_nodes : ℤ) ≤ node_id → node_id < 0 →
      ∃ r', r.add_packet node_id destination_id pkt g t = .ok r' ∧
        r'.packets = r.packets ++
          [⟨pkt, g, t, nodes_location r.model (node_id + r.model.num_nodes).toNat,
            node_id, destination_id⟩]) := by
  unfold Ring.add_packet
  refine ⟨?_, ?_, ?_⟩
  · split_ifs with h
    · simp only [Except.isOk, Except.toBool, Bool.false_eq_true, false_iff]
      omega
    · simp only [Except.isOk, Except.toBool, true_iff]
      omega
  · intro h0 hn
    rw [if_neg (by omega)]
    refine ⟨_, rfl, ?_⟩
    have hnotneg : ¬node_id < 0 := not_lt.mpr h0
    simp [numpy_index, hnotneg]
  · intro hge hneg
    rw [if_neg (by omega)]
    refine ⟨_, rfl, ?_⟩
    simp [numpy_index, hneg]

/-- Witness for C6: in-range `node_id = 1` on the two-node ring. -/
theorem add_packet_index_semantics_witness :
    ∃ r', c6_ring.add_packet 1 0 7 0 0 = .ok r' ∧
      r'.packets = c6_ring.packets ++
        [⟨7, 0, 0, nodes_location c6_ring.model (1 : ℤ).toNat, 1, 0⟩] :=
  (add_packet_index_semantics c6_ring 1 0 7 0 0).2.1 (by norm_num)
    (by show (1 : ℤ) < ((2 : ℕ) : ℤ); norm_num)

/-! ## Claim C10 -/

/-- Claim C10 (confirmed): if `packet_count` equals the number of live
packets, then after every successful `add_packet` and every successful
`remove_packet` it still does, and the operation appends exactly one
`packet_record` entry whose final field (`Total Packet Count`) is the
`packet_count` at that moment. -/
theorem packet_count_record_invariant {α} [DecidableEq α] (r : Ring α)
    (hinv : r.packet_count = r.packets.length) :
    (∀ (node_id destination_id : ℤ) (pkt : α) (g t : ℚ) (r' : Ring α),
        r.add_packet node_id destination_id pkt g t = .ok r' →
        r'.packet_count = r'.packets.length ∧
        ∃ e, r'.packet_record = r.packet_record ++ [e] ∧
          e.total_packet_count = r'.packet_count) ∧
    (∀ (node_id : ℤ) (pk : Packet α) (ts : ℚ) (r' : Ring α),
        r.remove_packet node_id pk ts = .ok r' →
        r'.packet_count = r'.packets.length ∧
        ∃ e, r'.packet_record = r.packet_record ++ [e] ∧
          e.total_packet_count = r'.packet_count) := by
  constructor
  · intro node_id destination_id pkt g t r' h
    unfold Ring.add_packet at h
    split_ifs at h with hcond
    injection h with h'
    subst h'
    refine ⟨?_, ⟨_, rfl, rfl⟩⟩
    simp only [List.length_append, List.length_singleton]
    rw [hinv]
    push_cast
    ring
  · intro node_id pk ts r' h
    unfold Ring.remove_packet at h
    split_ifs at h with hmem
    injection h with h'
    subst h'
    refine ⟨?_, ⟨_, rfl, rfl⟩⟩
    have hlen : (r.packets.erase pk).length = r.packets.length - 1 :=
      List.length_erase_of_mem hmem
    have hpos : 1 ≤ r.packets.length := List.length_pos_of_mem hmem
    simp only [hlen]
    rw [hinv, Nat.cast_sub hpos]
    push_cast
    ring

/-- Witness for C10: adding a packet to the empty two-node ring. -/
theorem packet_count_record_invariant_witness :
    c10_result.packet_count = c10_result.packets.length ∧
    ∃ e, c10_result.packet_record = c6_ring.packet_record ++ [e] ∧
      e.total_packet_count = c10_result.packet_count :=
  (packet_count_record_invariant c6_ring rfl).1 0 1 7 0 0 c10_result rfl

/-! ## Claims C2 and C9: the task state machines -/

/-- Claim C2 (code bug): the FT data task is supposed to dequeue the RAM
queue head and transmit it, but `RAM.queue` is a `collections.deque` and
`FT.transmit_on_data_ring` executes `self.ram.queue.pop(0)` —
`deque.pop()` takes no arguments, so the very first firing with
`control_packet_transmitted` set and a free data slot raises
`TypeError: pop() takes no arguments (1 given)`; nothing is ever dequeued
or transmitted (the repository's own test
`test_transmitter_data_packet_transmission.py` expects the transmitted
sequence to equal the generated one).  The theorem evaluates the embedded
code: the suspension point before the firing is reached with the record
queued and the flag set, and the firing itself — and hence the whole run —
raises. -/
theorem ft_data_task_pop_code_bug :
    runFT c2_ops = some c2_blocked ∧
    c2_blocked.control_packet_transmitted = true ∧
    c2_blocked.queue = [c2_record] ∧
    c2_blocked.transmitted = [] ∧
    FTStep c2_blocked (.dataTask false) = none ∧
    runFT (c2_ops ++ [.dataTask false]) = none := by
  exact ⟨rfl, rfl, rfl, rfl, rfl, rfl⟩

/-- Any property preserved by a fallible step function holds in every
state reachable by a successful `foldlM` run from a state satisfying
it. -/
lemma foldlM_option_invariant {σ τ : Type} {step : σ → τ → Option σ}
    {P : σ → Prop}
    (hstep : ∀ s op s', P s → step s op = some s' → P s') :
    ∀ (ops : List τ) (s0 s : σ), P s0 → ops.foldlM step s0 = some s → P s := by
  intro ops
  induction ops with
  | nil =>
    intro s0 s h0 h
    simp only [List.foldlM_nil, pure, Option.some.injEq] at h
    exact h ▸ h0
  | cons op ops ih =>
    intro s0 s h0 h
    rw [List.foldlM_cons] at h
    cases hstep0 : step s0 op with
    | none => rw [hstep0] at h; exact Option.noConfusion h
    | some s1 =>
      rw [hstep0] at h
      exact ih s1 s (hstep s0 op s1 h0 hstep0) h

/-- One successful FT activation preserves the exclusive-or of the two
handshake flags: `ramGen` leaves them, the control task either leaves or
flips both, and the data task either leaves them or raises (no state). -/
lemma FTStep_xor_preserved {s s' : FTState} {op : FTOp}
    (hx : s.control_packet_transmitted ≠ s.data_packet_transmitted)
    (h : FTStep s op = some s') :
    s'.control_packet_transmitted ≠ s'.data_packet_transmitted := by
  cases op with
  | ramGen rec =>
    simp only [FTStep, Option.some.injEq] at h
    subst h
    exact hx
  | controlTask ring_full present =>
    simp only [FTStep] at h
    split_ifs at h <;> (simp only [Option.some.injEq] at h; subst h) <;>
      first
      | exact hx
      | simp
  | dataTask present =>
    simp only [FTStep] at h
    split_ifs at h <;>
      first
      | exact Option.noConfusion h
      | (simp only [Option.some.injEq] at h; subst h; exact hx)

/-- One successful TR activation preserves the exclusive-or of the two
reception flags: every branch that would write the flags raises first
(`none`), the others leave them unchanged (`dataTune` touches only
`tuned`). -/
lemma TRStep_xor_preserved {receiver_id : ℤ} {s s' : TRState} {op : TROp}
    (hx : s.control_packet_received ≠ s.data_packet_received)
    (h : TRStep receiver_id s op = some s') :
    s'.control_packet_received ≠ s'.data_packet_received := by
  cases op with
  | controlTask found =>
    cases found with
    | none =>
      simp only [TRStep] at h
      split_ifs at h <;> (simp only [Option.some.injEq] at h; subst h; exact hx)
    | some pkt =>
      simp only [TRStep] at h
      split_ifs at h <;>
        first
        | exact Option.noConfusion h
        | (simp only [Option.some.injEq] at h; subst h; exact hx)
  | dataTune =>
    simp only [TRStep, Option.some.injEq] at h
    subst h
    split_ifs <;> exact hx
  | dataTask present =>
    simp only [TRStep] at h
    split_ifs at h <;>
      first
      | exact Option.noConfusion h
      | (simp only [Option.some.injEq] at h; subst h; exact hx)

/-- Claim C9 (confirmed): at every suspension point of the FT
transmitter's two tasks exactly one of `control_packet_transmitted` /
`data_packet_transmitted` is true, and at every suspension point of the
TR receiver's two tasks exactly one of `control_packet_received` /
`data_packet_received` is true (states after each successful activation,
including the τ-wait suspension inside `receive_on_data_ring`; initial
states are `(False, True)`; activations that raise — the data-task
`deque.pop(0)` and the receiver's `remove_packet` keyword `TypeError`s —
terminate the run and reach no further suspension point). -/
theorem transceiver_flag_xor_invariant :
    (∀ (ops : List FTOp) (s : FTState), runFT ops = some s →
      s.control_packet_transmitted ≠ s.data_packet_transmitted) ∧
    (∀ (receiver_id : ℤ) (ops : List TROp) (s : TRState),
      runTR receiver_id ops = some s →
      s.control_packet_received ≠ s.data_packet_received) := by
  constructor
  · intro ops s h
    exact foldlM_option_invariant
      (P := fun st => st.control_packet_transmitted ≠ st.data_packet_transmitted)
      (fun s1 op s2 hp hstep => FTStep_xor_preserved hp hstep)
      ops FTState.init s (by simp [FTState.init]) h
  · intro receiver_id ops s h
    exact foldlM_option_invariant
      (P := fun st => st.control_packet_received ≠ st.data_packet_received)
      (fun s1 op s2 hp hstep => TRStep_xor_preserved hp hstep)
      ops (TRState.init receiver_id) s (by simp [TRState.init]) h

/-- Witness for C9: the FT run that generates a record and sends its
control packet, and a TR run with empty checks. -/
theorem transceiver_flag_xor_invariant_witness :
    (c2_blocked.control_packet_transmitted ≠ c2_blocked.data_packet_transmitted) ∧
    ((TRState.init 0).control_packet_received ≠ (TRState.init 0).data_packet_received) :=
  ⟨transceiver_flag_xor_invariant.1 c2_ops c2_blocked rfl,
   transceiver_flag_xor_invariant.2 0 c9_tr_ops (TRState.init 0) rfl⟩

end NetworkSim
